import Mathlib

/-!
Shallow embedding of `src/alwrity_facebook.py` and verification of the
specification claims about it.

The program has three relevant pieces:
- `generate_facebook_post` (lines 9-52): emits progress 10, builds the prompt
  f-string (lines 26-44, the spec's `buildPrompt`), emits progress 30, calls
  the retry-wrapped client inside a `try/except`, emits progress 100 on the
  non-raising path and returns the response; on an exception it shows
  `st.error` and returns `None`.
- `generate_text_with_exception_handling` (lines 54-93): decorated with
  tenacity `@retry(wait=wait_random_exponential(min=1, max=60),
  stop=stop_after_attempt(6))`; its body emits progress 50, then inside a
  `try` configures the API client, builds the model, emits progress 70, sends
  the message, emits progress 90 and returns the text; `except Exception`
  shows `st.exception` and returns `None`.
- the submit handler in `main` (lines 143-162): rejects empty
  `business_type` / `target_audience` before any call, otherwise runs
  `generate_facebook_post` and displays either the post or an error. Python
  truthiness makes the empty string falsy at lines 144 and 155.

External effects are modelled explicitly: the outcome of the remote
interaction on each invocation is a `CallWorld` value, a raised exception is
an `Except.error`, and the user-visible side effects are accumulated as a
list of `UIEvent`s.
-/

/-- The six user-supplied form fields collected at lines 130-138 and passed to
`generate_facebook_post` at line 154. -/
structure PostRequest where
  business_type : String
  target_audience : String
  post_goal : String
  post_tone : String
  «include» : String
  avoid : String

/-- User-visible side effects of a run: `progress_callback(value)` calls,
`st.error`, `st.exception` and `st.write`/`st.markdown` displays. -/
inductive UIEvent where
  | progress (value : Nat)
  | errorMsg (msg : String)
  | exceptionMsg (msg : String)
  | writeMsg (msg : String)
deriving DecidableEq

/-- Literal segment of the prompt f-string (lines 26-27) before
`{business_type}`. -/
def seg0 : String := "\n    My business type is "

/-- Literal segment between `{business_type}` and `{target_audience}`
(lines 27-29). -/
def seg1 : String := ".\n\n    Please help me write a highly detailed Facebook post, at least 1000-2000 words, that will engage my target audience, "

/-- Literal segment between `{target_audience}` and `{post_goal}`
(lines 29-33). -/
def seg2 : String := ".\n\n    Here are some additional details to consider:\n\n    * **Post Goal:** "

/-- Literal segment between `{post_goal}` and `{post_tone}` (lines 33-34). -/
def seg3 : String := "\n    * **Post Tone:** "

/-- Literal segment between `{post_tone}` and `{include}` (lines 34-35). -/
def seg4 : String := "\n    * **Include:** "

/-- Literal segment between `{include}` and `{avoid}` (lines 35-36). -/
def seg5 : String := "\n    * **Avoid:** "

/-- Literal tail of the prompt f-string after `{avoid}` (lines 36-44),
holding the fixed example post structure. -/
def seg6 : String := "\n\n    **Example Post Structure:**\n\n    1. **Attention-Grabbing Opening:** Start with a question or a bold statement to capture attention.\n    2. **Engaging Content:** Describe the main message or offer, highlighting key benefits or features.\n    3. **Call-to-Action (CTA):** Encourage & provide compelling reasons for the audience to take a specific action (e.g., visit a link, comment, share).\n    4. **Hashtags:** Include relevant hashtags to increase post visibility.\n    "

/-- The prompt f-string of `generate_facebook_post` (lines 26-44): every field
is interpolated verbatim between the fixed literal segments. The spec names
this entry point `buildPrompt`. -/
def buildPrompt (r : PostRequest) : String :=
  seg0 ++ r.business_type ++ seg1 ++ r.target_audience ++ seg2 ++ r.post_goal
    ++ seg3 ++ r.post_tone ++ seg4 ++ r.«include» ++ seg5 ++ r.avoid ++ seg6

/-- Outcome of the external Gemini interaction during one invocation of the
client body. `setup` covers `genai.configure` and `GenerativeModel`
construction (lines 68-85); `send` covers `start_chat`, `send_message` and
`convo.last.text` (lines 87-90). `Except.error e` models an exception raised
there with message `e`. -/
structure CallWorld where
  setup : Except String Unit
  send : Except String String

/-- One invocation of the body of `generate_text_with_exception_handling`
(lines 55-93), as seen by the tenacity wrapper. `progress_callback(50)` at
line 66 sits before the `try`; the `try/except Exception` (lines 67-93)
catches every exception raised by the configuration or the remote call, shows
`st.exception` and returns `None`. The outer `Except` is what the tenacity
wrapper observes: an `Except.error` here would be an exception escaping the
body. Returns the observed outcome and the emitted events. -/
def genTextBody (w : CallWorld) : Except String (Option String) × List UIEvent :=
  let tryBlock : Except String String × List UIEvent :=
    match w.setup with
    | .error e => (.error e, [])
    | .ok () =>
      match w.send with
      | .error e => (.error e, [UIEvent.progress 70])
      | .ok text => (.ok text, [UIEvent.progress 70, UIEvent.progress 90])
  match tryBlock with
  | (.ok text, evs) => (.ok (some text), UIEvent.progress 50 :: evs)
  | (.error e, evs) =>
      (.ok none,
        (UIEvent.progress 50 :: evs)
          ++ [UIEvent.exceptionMsg ("An unexpected error occurred: " ++ e)])

/-- The tenacity `@retry(stop=stop_after_attempt(n))` loop (line 54): call the
wrapped function; a return value ends the loop, a raised exception triggers a
retry until `n` attempts have been made in total and is then re-raised (the
final `RetryError` is abstracted to the message of the last exception).
`made` counts attempts already made, `fuel` the retries still allowed; the
wrapped function receives the 1-based attempt number. Returns the outcome,
the total number of attempts made and the accumulated events. -/
def retryGo (f : Nat → Except String (Option String) × List UIEvent) (made : Nat) :
    Nat → Except String (Option String) × Nat × List UIEvent
  | 0 => ((f (made + 1)).1, made + 1, (f (made + 1)).2)
  | fuel + 1 =>
    match f (made + 1) with
    | (.ok a, evs) => (.ok a, made + 1, evs)
    | (.error _, evs) =>
      let rest := retryGo f (made + 1) fuel
      (rest.1, rest.2.1, evs ++ rest.2.2)

/-- `generate_text_with_exception_handling` as called through its decorator
(line 54): the body wrapped by the tenacity retry policy with
`stop_after_attempt(6)`, so at most six attempts in total. `behavior` gives
the external outcome of the n-th invocation (attempts numbered from 1). -/
def generate_text_with_exception_handling (behavior : Nat → CallWorld) :
    Except String (Option String) × Nat × List UIEvent :=
  retryGo (fun n => genTextBody (behavior n)) 0 5

/-- Result of one run of `generate_facebook_post`: the returned value, the
emitted events, the number of client attempts made and the prompt that was
built and handed to the client. -/
structure PostRun where
  result : Option String
  events : List UIEvent
  attempts : Nat
  prompt : String

/-- `generate_facebook_post` (lines 9-52): progress 10, build the prompt,
progress 30, call the retry-wrapped client inside `try/except` (lines 46-52);
on the non-raising path emit progress 100 and return the response (which may
be `None`); on an exception show `st.error` and return `None`. The remote
outcome is the world's, so the two matches below are the two arms of that
single `try/except`. -/
def generate_facebook_post (r : PostRequest) (behavior : Nat → CallWorld) : PostRun :=
  { result :=
      match (generate_text_with_exception_handling behavior).1 with
      | .ok response => response
      | .error _ => none
    events :=
      [UIEvent.progress 10, UIEvent.progress 30]
        ++ (generate_text_with_exception_handling behavior).2.2
        ++ (match (generate_text_with_exception_handling behavior).1 with
            | .ok _ => [UIEvent.progress 100]
            | .error e =>
                [UIEvent.errorMsg ("An error occurred while generating the prompt: " ++ e)])
    attempts := (generate_text_with_exception_handling behavior).2.1
    prompt := buildPrompt r }

/-- Python truthiness of a string: the empty string is falsy (lines 144
and 155). -/
def truthyStr (s : String) : Bool := !(s == "")

/-- Result of one press of the generate button in `main`: the displayed
events and the number of client attempts made (0 when no call was issued). -/
structure SubmitRun where
  events : List UIEvent
  attempts : Nat

/-- The submit handler of `main` (lines 143-162): if `business_type` or
`target_audience` is empty (Python falsy), show the validation error and
issue no call; otherwise run `generate_facebook_post` and display either the
generated post (lines 156-158) or the failure error (line 160). Note that
`if generated_post:` at line 155 also treats an empty returned string as
failure. -/
def mainSubmit (r : PostRequest) (behavior : Nat → CallWorld) : SubmitRun :=
  if truthyStr r.business_type && truthyStr r.target_audience then
    let run := generate_facebook_post r behavior
    match run.result with
    | some t =>
      if truthyStr t then
        { events := run.events
            ++ [UIEvent.writeMsg "**🧕 Verify: Alwrity can make mistakes. To err is Human & AI..**",
                UIEvent.writeMsg t, UIEvent.writeMsg "\n\n"]
          attempts := run.attempts }
      else
        { events := run.events ++ [UIEvent.errorMsg "Error: Failed to generate Facebook Post."]
          attempts := run.attempts }
    | none =>
      { events := run.events ++ [UIEvent.errorMsg "Error: Failed to generate Facebook Post."]
        attempts := run.attempts }
  else
    { events := [UIEvent.errorMsg "🚫 Provide required inputs. Least, you can do.."]
      attempts := 0 }

/-- The arguments of the `progress_callback` invocations of an event list, in
order. -/
def progressValues : List UIEvent → List Nat
  | [] => []
  | UIEvent.progress n :: rest => n :: progressValues rest
  | _ :: rest => progressValues rest

/-- An invocation during which the external interaction raises somewhere:
either the configuration or the remote call throws. -/
def attemptFails (w : CallWorld) : Prop :=
  (∃ e, w.setup = Except.error e) ∨ (∃ e, w.send = Except.error e)

/-- A generation client whose remote call raises on every invocation. -/
def alwaysFailWorld : Nat → CallWorld :=
  fun _ => { setup := Except.ok (), send := Except.error "ServiceUnavailable" }

/-- A generation client whose remote call raises on the first invocation and
succeeds from the second invocation on (the k = 1 case of a
fails-k-times-then-succeeds client). -/
def failOnceWorld : Nat → CallWorld :=
  fun n =>
    if n ≤ 1 then { setup := Except.ok (), send := Except.error "Timeout" }
    else { setup := Except.ok (), send := Except.ok "Generated post" }

/-- A generation client that succeeds on every invocation. -/
def alwaysOkWorld : Nat → CallWorld :=
  fun _ => { setup := Except.ok (), send := Except.ok "Here is your Facebook post" }

/-- Line 68 reads the credential with `os.getenv('GEMINI_API_KEY')`, which
yields `None` when the variable is absent; configuring the external client
with an absent key makes the configuration/call raise (behaviour of the
external `genai` library), while a present key leaves the attempt to proceed
per the world. -/
def worldWithEnv (env : Option String) (w : CallWorld) : CallWorld :=
  match env with
  | none => { setup := Except.error "Missing GEMINI_API_KEY", send := w.send }
  | some _ => w

/-- The tenacity `wait_exponential(multiplier=1, min=1, max=60, exp_base=2)`
window used by `wait_random_exponential(min=1, max=60)` at line 54: the value
`multiplier * exp_base ^ (attempt_number - 1)` clamped by
`max(max(0, min), min(result, max))`, embedded over `ℚ`. -/
def waitWindowHigh (attemptNumber : Nat) : ℚ :=
  max (max 0 1) (min ((2 : ℚ) ^ (attemptNumber - 1)) 60)

/-- The delay drawn by tenacity `wait_random_exponential(min=1, max=60)`
(line 54): `random.uniform(0, high)` with `high = waitWindowHigh`, modelled by
the uniform draw parameter `u ∈ [0, 1]`, the delay being `u * high`. -/
def waitDelay (u : ℚ) (attemptNumber : Nat) : ℚ := u * waitWindowHigh attemptNumber

/-- The substring relation: `sub` occurs contiguously inside `s`. -/
def strContains (s sub : String) : Prop := sub.data <:+: s.data

/-- The example request of the spec: the worked example of section 8. -/
def exampleRequest : PostRequest :=
  { business_type := "fitness coach", target_audience := "busy professionals",
    post_goal := "Increase engagement", post_tone := "Upbeat",
    «include» := "a short video", avoid := "long paragraphs" }

/-- Helper characterisation of the body on an invocation whose configuration
raises: the exception is caught, `st.exception` is shown and `None` is
returned, so the wrapper observes a normal return. -/
theorem genTextBody_setup_error (w : CallWorld) (e : String)
    (h : w.setup = Except.error e) :
    genTextBody w =
      (Except.ok none,
        [UIEvent.progress 50,
         UIEvent.exceptionMsg ("An unexpected error occurred: " ++ e)]) := by
  simp [genTextBody, h]

/-- Helper characterisation of the body on an invocation whose remote call
raises after a successful configuration. -/
theorem genTextBody_send_error (w : CallWorld) (e : String)
    (hs : w.setup = Except.ok ()) (h : w.send = Except.error e) :
    genTextBody w =
      (Except.ok none,
        [UIEvent.progress 50, UIEvent.progress 70,
         UIEvent.exceptionMsg ("An unexpected error occurred: " ++ e)]) := by
  simp [genTextBody, hs, h]

/-- Helper characterisation of the body on a fully successful invocation. -/
theorem genTextBody_success (w : CallWorld) (t : String)
    (hs : w.setup = Except.ok ()) (h : w.send = Except.ok t) :
    genTextBody w =
      (Except.ok (some t),
        [UIEvent.progress 50, UIEvent.progress 70, UIEvent.progress 90]) := by
  simp [genTextBody, hs, h]

/-- On any failing invocation the body returns `None` normally. -/
theorem genTextBody_of_fail (w : CallWorld) (h : attemptFails w) :
    ∃ evs, genTextBody w = (Except.ok none, evs) := by
  rcases h with ⟨e, he⟩ | ⟨e, he⟩
  · exact ⟨_, genTextBody_setup_error w e he⟩
  · cases hs : w.setup with
    | error e2 => exact ⟨_, genTextBody_setup_error w e2 hs⟩
    | ok u => cases u; exact ⟨_, genTextBody_send_error w e hs he⟩

/-- When the first invocation of the wrapped body returns normally, the
tenacity loop stops after exactly one attempt with that value. -/
theorem gtweh_first_ok (behavior : Nat → CallWorld) (a : Option String)
    (evs : List UIEvent) (h : genTextBody (behavior 1) = (Except.ok a, evs)) :
    generate_text_with_exception_handling behavior = (Except.ok a, 1, evs) := by
  show retryGo _ 0 (4 + 1) = _
  unfold retryGo
  simp [h]

/-- The tenacity loop always makes at least one attempt beyond the count
already made. -/
theorem retryGo_attempts_ge (f : Nat → Except String (Option String) × List UIEvent) :
    ∀ fuel made : Nat, made + 1 ≤ (retryGo f made fuel).2.1 := by
  intro fuel
  induction fuel with
  | zero => intro made; exact Nat.le_refl _
  | succ n ih =>
    intro made
    unfold retryGo
    cases hf : f (made + 1) with
    | mk res evs =>
      cases res with
      | ok a => simp
      | error e =>
        simp only []
        exact le_trans (Nat.le_succ (made + 1)) (ih (made + 1))

/-- The tenacity retry combinator itself does retry a genuinely raising
wrapped function until six attempts have been made; the missing retries of
the program come from the catch-all inside the wrapped body, not from the
retry policy. -/
theorem retryGo_raising_six_attempts :
    (retryGo (fun _ => (Except.error "boom", [])) 0 5).2.1 = 6 := rfl

/-- Claim C1. The claim states that with an always-failing generation client
the operation makes exactly 6 attempts before reporting failure. The code
diverges: the catch-all `except Exception` inside the wrapped body (lines
91-93) swallows every generation failure and returns `None`, so the tenacity
wrapper observes a normal return and stops after exactly one attempt; failure
is reported as absence of a result after that single attempt, and the six
attempts promised by `stop_after_attempt(6)` never happen. -/
theorem claim1_single_attempt_when_all_fail :
    (generate_text_with_exception_handling alwaysFailWorld).2.1 = 1 ∧
    (generate_text_with_exception_handling alwaysFailWorld).1 = Except.ok none ∧
    (generate_text_with_exception_handling alwaysFailWorld).2.1 ≠ 6 :=
  ⟨rfl, rfl, by decide⟩

/-- Claim C2. The claim states that a client failing exactly k < 6 times and
then succeeding yields success after k + 1 attempts. The code diverges for
every k ≥ 1: with a client failing exactly once and succeeding afterwards
(k = 1), the caught first failure returns `None` immediately, the tenacity
wrapper never retries, and the overall operation reports no result after
exactly one attempt instead of success after two. -/
theorem claim2_fail_once_returns_none_after_one_attempt :
    (generate_text_with_exception_handling failOnceWorld).1 = Except.ok none ∧
    (generate_text_with_exception_handling failOnceWorld).2.1 = 1 ∧
    (generate_facebook_post exampleRequest failOnceWorld).result = none :=
  ⟨rfl, rfl, rfl⟩

/-- Claim C9. The inner generation call never raises to its caller: for every
behaviour of the configuration and the remote call, every exception arising
inside the body is caught by the `try/except Exception` of lines 67-93 and
the function returns normally (with `None` on the failing paths). -/
theorem claim9_body_never_raises (w : CallWorld) :
    ∃ o, (genTextBody w).1 = Except.ok o := by
  cases hs : w.setup with
  | error e => exact ⟨none, by simp [genTextBody_setup_error w e hs]⟩
  | ok u =>
    cases u
    cases hd : w.send with
    | error e => exact ⟨none, by simp [genTextBody_send_error w e hs hd]⟩
    | ok t => exact ⟨some t, by simp [genTextBody_success w t hs hd]⟩

/-- Claim C10. On a run whose single generation attempt succeeds, the progress
callback is invoked exactly six times with the values 10, 30, 50, 70, 90, 100,
in that strictly increasing order (lines 25, 45, 48 of
`generate_facebook_post` and lines 66, 86, 89 of the client body). -/
theorem claim10_progress_sequence (r : PostRequest) (behavior : Nat → CallWorld)
    (t : String) (hs : (behavior 1).setup = Except.ok ())
    (hd : (behavior 1).send = Except.ok t) :
    progressValues (generate_facebook_post r behavior).events
      = [10, 30, 50, 70, 90, 100] := by
  have hb := genTextBody_success (behavior 1) t hs hd
  have hg := gtweh_first_ok behavior (some t) _ hb
  simp [generate_facebook_post, hg, progressValues]

/-- Witness for claim C10 at a concrete request and a concrete succeeding
client. -/
theorem claim10_witness :
    progressValues (generate_facebook_post exampleRequest alwaysOkWorld).events
      = [10, 30, 50, 70, 90, 100] :=
  claim10_progress_sequence exampleRequest alwaysOkWorld "Here is your Facebook post" rfl rfl

/-- Claim C3. When every generation attempt fails, the operation terminates
with no result and never propagates an exception past the client boundary:
the tenacity wrapper observes a normal `None` return, `generate_facebook_post`
returns `None`, and the caller in `main` displays the user-facing error
message of line 160 instead of crashing. -/
theorem claim3_failure_is_none_not_raise (r : PostRequest)
    (behavior : Nat → CallWorld) (hfail : ∀ n, attemptFails (behavior n))
    (hb : r.business_type ≠ "") (ht : r.target_audience ≠ "") :
    (generate_text_with_exception_handling behavior).1 = Except.ok none ∧
    (generate_facebook_post r behavior).result = none ∧
    UIEvent.errorMsg "Error: Failed to generate Facebook Post."
      ∈ (mainSubmit r behavior).events := by
  obtain ⟨evs, hpair⟩ := genTextBody_of_fail (behavior 1) (hfail 1)
  have hg := gtweh_first_ok behavior none evs hpair
  refine ⟨by rw [hg], by simp [generate_facebook_post, hg], ?_⟩
  have hres : (generate_facebook_post r behavior).result = none := by
    simp [generate_facebook_post, hg]
  simp [mainSubmit, truthyStr, hb, ht, hres]

/-- Witness for claim C3 at the example request and the always-failing
client. -/
theorem claim3_witness :
    (generate_text_with_exception_handling alwaysFailWorld).1 = Except.ok none ∧
    (generate_facebook_post exampleRequest alwaysFailWorld).result = none ∧
    UIEvent.errorMsg "Error: Failed to generate Facebook Post."
      ∈ (mainSubmit exampleRequest alwaysFailWorld).events :=
  claim3_failure_is_none_not_raise exampleRequest alwaysFailWorld
    (fun _ => Or.inr ⟨"ServiceUnavailable", rfl⟩) (by decide) (by decide)

/-- Whenever the required fields are non-empty, the submit handler reports
exactly the attempt count of the underlying run, whichever display branch it
takes. -/
theorem mainSubmit_attempts_eq (r : PostRequest) (behavior : Nat → CallWorld)
    (hb : r.business_type ≠ "") (ht : r.target_audience ≠ "") :
    (mainSubmit r behavior).attempts = (generate_facebook_post r behavior).attempts := by
  have hcond : (truthyStr r.business_type && truthyStr r.target_audience) = true := by
    simp [truthyStr, hb, ht]
  cases hres : (generate_facebook_post r behavior).result with
  | none => simp [mainSubmit, hcond, hres]
  | some t =>
    simp only [mainSubmit, hcond, hres, if_true]
    split <;> rfl

/-- Claim C4. A submission with an empty `business_type` or an empty
`target_audience` issues no generation call and surfaces the validation error
of line 145; a generation call is issued only when both fields are non-empty,
and then at least one attempt is made. -/
theorem claim4_validation_gate (r : PostRequest) (behavior : Nat → CallWorld) :
    ((r.business_type = "" ∨ r.target_audience = "") →
      (mainSubmit r behavior).attempts = 0 ∧
      UIEvent.errorMsg "🚫 Provide required inputs. Least, you can do.."
        ∈ (mainSubmit r behavior).events) ∧
    ((mainSubmit r behavior).attempts ≠ 0 →
      r.business_type ≠ "" ∧ r.target_audience ≠ "") ∧
    (r.business_type ≠ "" → r.target_audience ≠ "" →
      1 ≤ (mainSubmit r behavior).attempts) := by
  by_cases hb : r.business_type = ""
  · refine ⟨fun _ => ?_, fun h => ?_, fun hb2 _ => absurd hb hb2⟩
    · simp [mainSubmit, truthyStr, hb]
    · exact absurd (by simp [mainSubmit, truthyStr, hb]) h
  · by_cases ht : r.target_audience = ""
    · refine ⟨fun _ => ?_, fun h => ?_, fun _ ht2 => absurd ht ht2⟩
      · simp [mainSubmit, truthyStr, ht]
      · exact absurd (by simp [mainSubmit, truthyStr, ht]) h
    · refine ⟨fun h => ?_, fun _ => ⟨hb, ht⟩, fun _ _ => ?_⟩
      · rcases h with h | h
        · exact absurd h hb
        · exact absurd h ht
      · rw [mainSubmit_attempts_eq r behavior hb ht]
        exact retryGo_attempts_ge _ 5 0

/-- Witness for claim C4 at a concrete submission with an empty business
type. -/
theorem claim4_witness :
    (mainSubmit ⟨"", "busy professionals", "Increase engagement", "Upbeat",
        "a short video", "long paragraphs"⟩ alwaysFailWorld).attempts = 0 ∧
    UIEvent.errorMsg "🚫 Provide required inputs. Least, you can do.."
      ∈ (mainSubmit ⟨"", "busy professionals", "Increase engagement", "Upbeat",
          "a short video", "long paragraphs"⟩ alwaysFailWorld).events :=
  (claim4_validation_gate ⟨"", "busy professionals", "Increase engagement", "Upbeat",
      "a short video", "long paragraphs"⟩ alwaysFailWorld).1 (Or.inl rfl)

set_option maxRecDepth 8000 in
/-- Claim C5. For every request, the prompt contains the literal text of each
of the six input fields as a substring, with no truncation or escaping, plus
the four fixed structural section headers of the example post structure
(opening, content, call-to-action, hashtags). -/
theorem claim5_prompt_contains_fields_and_headers (r : PostRequest) :
    strContains (buildPrompt r) r.business_type ∧
    strContains (buildPrompt r) r.target_audience ∧
    strContains (buildPrompt r) r.post_goal ∧
    strContains (buildPrompt r) r.post_tone ∧
    strContains (buildPrompt r) r.«include» ∧
    strContains (buildPrompt r) r.avoid ∧
    strContains (buildPrompt r) "Attention-Grabbing Opening" ∧
    strContains (buildPrompt r) "Engaging Content" ∧
    strContains (buildPrompt r) "Call-to-Action (CTA)" ∧
    strContains (buildPrompt r) "Hashtags" := by
  have hseg : seg6.data <:+: (buildPrompt r).data :=
    ⟨(seg0 ++ r.business_type ++ seg1 ++ r.target_audience ++ seg2 ++ r.post_goal
        ++ seg3 ++ r.post_tone ++ seg4 ++ r.«include» ++ seg5 ++ r.avoid).data, [],
      by simp [buildPrompt, String.data_append]⟩
  have h1 : strContains (buildPrompt r) r.business_type :=
    ⟨seg0.data,
      (seg1 ++ r.target_audience ++ seg2 ++ r.post_goal ++ seg3 ++ r.post_tone
        ++ seg4 ++ r.«include» ++ seg5 ++ r.avoid ++ seg6).data,
      by simp [buildPrompt, String.data_append]⟩
  have h2 : strContains (buildPrompt r) r.target_audience :=
    ⟨(seg0 ++ r.business_type ++ seg1).data,
      (seg2 ++ r.post_goal ++ seg3 ++ r.post_tone ++ seg4 ++ r.«include»
        ++ seg5 ++ r.avoid ++ seg6).data,
      by simp [buildPrompt, String.data_append]⟩
  have h3 : strContains (buildPrompt r) r.post_goal :=
    ⟨(seg0 ++ r.business_type ++ seg1 ++ r.target_audience ++ seg2).data,
      (seg3 ++ r.post_tone ++ seg4 ++ r.«include» ++ seg5 ++ r.avoid ++ seg6).data,
      by simp [buildPrompt, String.data_append]⟩
  have h4 : strContains (buildPrompt r) r.post_tone :=
    ⟨(seg0 ++ r.business_type ++ seg1 ++ r.target_audience ++ seg2 ++ r.post_goal
        ++ seg3).data,
      (seg4 ++ r.«include» ++ seg5 ++ r.avoid ++ seg6).data,
      by simp [buildPrompt, String.data_append]⟩
  have h5 : strContains (buildPrompt r) r.«include» :=
    ⟨(seg0 ++ r.business_type ++ seg1 ++ r.target_audience ++ seg2 ++ r.post_goal
        ++ seg3 ++ r.post_tone ++ seg4).data,
      (seg5 ++ r.avoid ++ seg6).data,
      by simp [buildPrompt, String.data_append]⟩
  have h6 : strContains (buildPrompt r) r.avoid :=
    ⟨(seg0 ++ r.business_type ++ seg1 ++ r.target_audience ++ seg2 ++ r.post_goal
        ++ seg3 ++ r.post_tone ++ seg4 ++ r.«include» ++ seg5).data,
      seg6.data,
      by simp [buildPrompt, String.data_append]⟩
  have hA : "Attention-Grabbing Opening".data <:+: seg6.data := by decide
  have hB : "Engaging Content".data <:+: seg6.data := by decide
  have hC : "Call-to-Action (CTA)".data <:+: seg6.data := by decide
  have hD : "Hashtags".data <:+: seg6.data := by decide
  exact ⟨h1, h2, h3, h4, h5, h6, hA.trans hseg, hB.trans hseg, hC.trans hseg, hD.trans hseg⟩

/-- Claim C6. The prompt builder is deterministic and pure: two runs on
field-identical requests, even against different external behaviours, build
byte-identical prompt strings, and the prompt built by a run is exactly
`buildPrompt` of its request. -/
theorem claim6_prompt_deterministic (r₁ r₂ : PostRequest) (b₁ b₂ : Nat → CallWorld)
    (h1 : r₁.business_type = r₂.business_type)
    (h2 : r₁.target_audience = r₂.target_audience)
    (h3 : r₁.post_goal = r₂.post_goal) (h4 : r₁.post_tone = r₂.post_tone)
    (h5 : r₁.«include» = r₂.«include») (h6 : r₁.avoid = r₂.avoid) :
    (generate_facebook_post r₁ b₁).prompt = (generate_facebook_post r₂ b₂).prompt ∧
    (generate_facebook_post r₁ b₁).prompt = buildPrompt r₁ := by
  constructor
  · show buildPrompt r₁ = buildPrompt r₂
    simp [buildPrompt, h1, h2, h3, h4, h5, h6]
  · rfl

/-- Witness for claim C6 at the example request against two different external
behaviours. -/
theorem claim6_witness :
    (generate_facebook_post exampleRequest alwaysOkWorld).prompt
      = (generate_facebook_post exampleRequest alwaysFailWorld).prompt ∧
    (generate_facebook_post exampleRequest alwaysOkWorld).prompt
      = buildPrompt exampleRequest :=
  claim6_prompt_deterministic exampleRequest exampleRequest alwaysOkWorld alwaysFailWorld
    rfl rfl rfl rfl rfl rfl

/-- Counterexample to claim C7 as stated. The draw parameter 1/2 is a
legitimate uniform draw (it lies in [0, 1]), yet the resulting first-retry
delay is 1/2, strictly below the claimed lower bound of 1: tenacity's
`wait_random_exponential` draws uniformly from 0 up to the clamped window,
so `min=1` bounds the window top, not the sampled delay. -/
theorem claim7_counterexample :
    0 ≤ (1 / 2 : ℚ) ∧ (1 / 2 : ℚ) ≤ 1 ∧ waitDelay (1 / 2) 1 < 1 := by
  refine ⟨by norm_num, by norm_num, ?_⟩
  norm_num [waitDelay, waitWindowHigh]

/-- Claim C7 as amended. Every inter-attempt retry delay lies within
[0, 60] time units, and the exponential backoff window's upper endpoint lies
within [1, 60], regardless of the attempt count. -/
theorem claim7_amended_delay_bounds (attemptNumber : Nat) (u : ℚ)
    (hu0 : 0 ≤ u) (hu1 : u ≤ 1) :
    (0 ≤ waitDelay u attemptNumber ∧ waitDelay u attemptNumber ≤ 60) ∧
    (1 ≤ waitWindowHigh attemptNumber ∧ waitWindowHigh attemptNumber ≤ 60) := by
  have hlow : (1 : ℚ) ≤ waitWindowHigh attemptNumber := by
    unfold waitWindowHigh
    exact le_max_of_le_left (by norm_num)
  have hhigh : waitWindowHigh attemptNumber ≤ 60 := by
    unfold waitWindowHigh
    exact max_le (by norm_num) (min_le_right _ _)
  have hnn : (0 : ℚ) ≤ waitWindowHigh attemptNumber := le_trans zero_le_one hlow
  refine ⟨⟨mul_nonneg hu0 hnn, ?_⟩, hlow, hhigh⟩
  calc u * waitWindowHigh attemptNumber
      ≤ 1 * waitWindowHigh attemptNumber := mul_le_mul_of_nonneg_right hu1 hnn
    _ = waitWindowHigh attemptNumber := one_mul _
    _ ≤ 60 := hhigh

/-- Witness for the amended claim C7 at the third attempt with draw
parameter 1/2. -/
theorem claim7_witness :
    (0 ≤ waitDelay (1 / 2) 3 ∧ waitDelay (1 / 2) 3 ≤ 60) ∧
    (1 ≤ waitWindowHigh 3 ∧ waitWindowHigh 3 ≤ 60) :=
  claim7_amended_delay_bounds 3 (1 / 2) (by norm_num) (by norm_num)

/-- Claim C8. With the API-key environment variable absent, the configuration
raises, the exception is caught like any other call failure: the operation
returns no result without crashing, shows the `st.exception` message, and its
outcome is indistinguishable from that of any client whose attempts all fail
(exhausted-retries failure included). -/
theorem claim8_missing_key_is_call_failure (behavior failing : Nat → CallWorld)
    (hfail : ∀ n, attemptFails (failing n)) :
    (generate_text_with_exception_handling (fun n => worldWithEnv none (behavior n))).1
      = Except.ok none ∧
    (generate_text_with_exception_handling (fun n => worldWithEnv none (behavior n))).1
      = (generate_text_with_exception_handling failing).1 ∧
    (∃ m, UIEvent.exceptionMsg m
      ∈ (generate_text_with_exception_handling (fun n => worldWithEnv none (behavior n))).2.2) := by
  have hsetup : (worldWithEnv none (behavior 1)).setup
      = Except.error "Missing GEMINI_API_KEY" := rfl
  have hb := genTextBody_setup_error (worldWithEnv none (behavior 1)) _ hsetup
  have hg := gtweh_first_ok (fun n => worldWithEnv none (behavior n)) none _ hb
  obtain ⟨evs2, hpair2⟩ := genTextBody_of_fail (failing 1) (hfail 1)
  have hg2 := gtweh_first_ok failing none evs2 hpair2
  refine ⟨by rw [hg], by rw [hg, hg2],
    ⟨"An unexpected error occurred: Missing GEMINI_API_KEY", ?_⟩⟩
  rw [hg]
  simp

/-- Witness for claim C8: a missing key over an otherwise succeeding client,
compared with the always-failing client. -/
theorem claim8_witness :
    (generate_text_with_exception_handling (fun n => worldWithEnv none (alwaysOkWorld n))).1
      = Except.ok none ∧
    (generate_text_with_exception_handling (fun n => worldWithEnv none (alwaysOkWorld n))).1
      = (generate_text_with_exception_handling alwaysFailWorld).1 ∧
    (∃ m, UIEvent.exceptionMsg m
      ∈ (generate_text_with_exception_handling (fun n => worldWithEnv none (alwaysOkWorld n))).2.2) :=
  claim8_missing_key_is_call_failure alwaysOkWorld alwaysFailWorld
    (fun _ => Or.inr ⟨"ServiceUnavailable", rfl⟩)
